import Mathlib

/-!
Shallow embedding of `src/consultor.py` (Flask app exposing POST /query).

The program is a linear pipeline: parse the JSON body, ask the OpenAI chat
endpoint for a SQL string, run it on PostgreSQL, ask OpenAI to explain the
rows, and return `{"data": rows, "enhanced_response": text}`.

External effects (the two HTTP calls to the LLM and the psycopg2 driver) are
modelled as oracle values (`CallBehavior`, `DbBehavior`) supplied to each
call site: a behavior says what the outside world did on that call (HTTP
status and extracted first-choice content, or an exception; for the
database: connect failure, a `psycopg2.Error` during execution, a successful
result set, or a non-psycopg2 exception that propagates).  Python exceptions
are modelled by `PyResult`.  Python values appearing in the JSON body are
modelled by `PyVal`, with Python truthiness made explicit.

The handler additionally returns a `Trace` recording which of the three
components were invoked in the run and with what result, and the final
`SQLChatBot` state, so that never-calls-X and no-mutation claims are
statable.
-/

namespace Consultor

/-- A dynamically typed Python value as it can appear in the request JSON. -/
inductive PyVal where
  | none
  | str (s : String)
  | int (n : Int)
  | bool (b : Bool)
deriving DecidableEq, Repr

/-- Python truthiness of a `PyVal` (`if not user_input:`):
`None`, `""`, `0` and `False` are falsy. -/
def truthy : PyVal → Bool
  | PyVal.none => false
  | PyVal.str s => !(s == "")
  | PyVal.int n => !(n == 0)
  | PyVal.bool b => b

/-- Truthiness of `dict.get`'s result: a missing key (`None`) is falsy. -/
def truthyOpt : Option PyVal → Bool
  | Option.none => false
  | some v => truthy v

/-- Truthiness of an optional string (`if not sql_query:`, `if db_error:`):
Python `None` and the empty string are falsy. -/
def truthyStrOpt : Option String → Bool
  | Option.none => false
  | some s => !(s == "")

/-- Result of running a piece of Python code: a normal value, or an
exception carrying `str(e)`. -/
inductive PyResult (α : Type) where
  | ok (a : α)
  | exn (msg : String)
deriving DecidableEq, Repr

/-- The `SQLChatBot` instance state: the two fields set by `__init__` from
the environment (`os.getenv` may return `None`, hence `Option`).  No method
of the class assigns to `self`, which the embedding makes checkable by
threading the state through every method. -/
structure SQLChatBot where
  db_url : Option String
  openai_api_key : Option String
deriving DecidableEq, Repr

/-- Behavior of one `requests.post` call to the chat-completion endpoint,
as observed by the caller: either the call (or the JSON field extraction)
raises, or it returns a status code together with the content of the first
choice's message. -/
inductive CallBehavior where
  | raises (msg : String)
  | returns (status : Nat) (content : String)
deriving DecidableEq, Repr

/-- Behavior of the psycopg2 driver for one `execute_query` call:
`connectFail` is a `psycopg2.Error` raised by `psycopg2.connect` (caught in
`connect_db`, which then returns `None`); `execFail msg` is a
`psycopg2.Error` with `str(e) = msg` raised while executing or fetching
(caught in `execute_query`); `success cols rows` is a normal execution with
`cursor.description` column names `cols` and `fetchall` rows `rows`;
`raisesOther` is any non-`psycopg2.Error` exception, which neither
`connect_db` nor `execute_query` catches. -/
inductive DbBehavior where
  | raisesOther (msg : String)
  | connectFail
  | execFail (msg : String)
  | success (columns : List String) (rows : List (List PyVal))
deriving DecidableEq, Repr

/-- One result record: `dict(zip(columns, row))`, embedded as the
association list `List.zip columns row` (the key set of the Python dict is
the set of first components). -/
abbrev Rec := List (String × PyVal)

/-- What `execute_query` returns, i.e. the pair `(result, error)`, enriched
with two ghost observations about the connection object: whether a
connection was successfully opened during the call and whether `conn.close()`
ran before the return. -/
structure ExecResult where
  result : Option (List Rec)
  error : Option String
  connOpened : Bool
  connClosed : Bool
deriving DecidableEq, Repr

/-- `connect_db`: returns a connection handle, or `None` when
`psycopg2.connect` raised a `psycopg2.Error` (printed and swallowed). -/
def SQLChatBot.connect_db (bot : SQLChatBot) (b : DbBehavior) :
    Option Unit × SQLChatBot :=
  (match b with
   | DbBehavior.connectFail => Option.none
   | _ => some (), bot)

/-- `execute_query`: connect; on no connection return
`(None, "No se pudo conectar a la base de datos.")`; otherwise execute and
fetch.  On success, `conn.close()` runs and the rows are mapped to
`dict(zip(columns, row))`; on a `psycopg2.Error` the `except` branch returns
`(None, f"Error en la base de datos: {str(e)}")` directly — the
`conn.close()` on the success path is never reached, so `connClosed` is
`false` there.  Any other exception propagates. -/
def SQLChatBot.execute_query (bot : SQLChatBot) (b : DbBehavior) :
    PyResult ExecResult × SQLChatBot :=
  (match b with
   | DbBehavior.raisesOther m => PyResult.exn m
   | DbBehavior.connectFail =>
       PyResult.ok ⟨Option.none, some "No se pudo conectar a la base de datos.",
                    false, false⟩
   | DbBehavior.execFail m =>
       PyResult.ok ⟨Option.none, some ("Error en la base de datos: " ++ m),
                    true, false⟩
   | DbBehavior.success cols rows =>
       PyResult.ok ⟨some (rows.map fun row => List.zip cols row), Option.none,
                    true, true⟩, bot)

/-- Python `str.strip()`: drop leading and trailing whitespace. -/
def pyStrip (s : String) : String :=
  ⟨((s.data.dropWhile Char.isWhitespace).reverse.dropWhile Char.isWhitespace).reverse⟩

/-- Python `str.replace(pat, rep)` on char lists: scan left to right,
replacing non-overlapping occurrences of `pat` and continuing after the
replacement.  The fuel argument (instantiated with the list length) only
makes the recursion structural; it is never exhausted. -/
def replChars (pat rep : List Char) : Nat → List Char → List Char
  | _, [] => []
  | 0, l => l
  | fuel + 1, c :: cs =>
      if pat.isPrefixOf (c :: cs) then
        rep ++ replChars pat rep fuel (List.drop pat.length (c :: cs))
      else c :: replChars pat rep fuel cs

/-- Python `str.replace(pat, rep)` (with the nonempty patterns used here). -/
def pyReplace (s pat rep : String) : String :=
  if pat.data.isEmpty then s
  else ⟨replChars pat.data rep.data s.data.length s.data⟩

/-- The cleaning applied to the first choice's content in
`get_sql_query_from_openai`:
`sql_query.strip().replace('```sql', '').replace('```', '')`. -/
def cleanSql (content : String) : String :=
  pyReplace (pyReplace (pyStrip content) "```sql" "") "```" ""

/-- `get_sql_query_from_openai`: POST to the completion endpoint; on status
200 extract the first choice's content, strip and drop code fences; on any
other status print and return `None`.  An exception in the call or the
extraction propagates. -/
def SQLChatBot.get_sql_query_from_openai (bot : SQLChatBot)
    (b : CallBehavior) : PyResult (Option String) × SQLChatBot :=
  (match b with
   | CallBehavior.raises m => PyResult.exn m
   | CallBehavior.returns st content =>
       if st = 200 then PyResult.ok (some (cleanSql content))
       else PyResult.ok Option.none, bot)

/-- `get_enhanced_response`: POST to the completion endpoint; on status 200
return the first choice's content unmodified; otherwise print and return
`None`.  An exception propagates. -/
def SQLChatBot.get_enhanced_response (bot : SQLChatBot)
    (b : CallBehavior) : PyResult (Option String) × SQLChatBot :=
  (match b with
   | CallBehavior.raises m => PyResult.exn m
   | CallBehavior.returns st content =>
       if st = 200 then PyResult.ok (some content)
       else PyResult.ok Option.none, bot)

/-- The environment of one request to `/query`: the parsed JSON body
(`request.json` as a dict, or the exception that parsing / attribute access
raised — note lines 103-104 sit *before* the handler's `try`), and the
behavior of the outside world at each of the three outbound call sites,
as a function of what the code passes to that call. -/
structure HandlerEnv where
  requestJson : PyResult (List (String × PyVal))
  genCall : Option PyVal → CallBehavior
  dbCall : String → DbBehavior
  explainCall : Option (List Rec) → CallBehavior

/-- A response body: `jsonify({"error": msg})` or
`jsonify({"data": results, "enhanced_response": detailed_response})`. -/
inductive RespBody where
  | errorBody (msg : String)
  | successBody (data : Option (List Rec)) (enhanced_response : Option String)
deriving DecidableEq, Repr

/-- What one request run produces at the WSGI boundary: an HTTP response
with a status and a JSON body built by this handler, or an exception that
escaped `query_database` (left to Flask's default error handling, which
does not produce this handler's `error` JSON). -/
inductive HttpOutcome where
  | response (status : Nat) (body : RespBody)
  | unhandled (msg : String)
deriving DecidableEq, Repr

/-- Ghost trace of a run: for each of the three components, `none` when the
run never invoked it, and `some r` when it was invoked and produced `r`. -/
structure Trace where
  genResult : Option (PyResult (Option String))
  dbResult : Option (PyResult ExecResult)
  explainResult : Option (PyResult (Option String))
deriving DecidableEq, Repr

/-- The `/query` handler `query_database`, as one pure function of the bot
state and the request environment.  Faithful to the source's control flow:
`request.json` and `.get` happen before the `try`; `if not user_input`
returns 400; inside the `try`, an empty or missing generated query returns
500, a truthy `db_error` returns 500 with exactly that string, otherwise
the explainer runs and the success body is returned (Flask's default
status 200); `except Exception as e` maps any exception raised inside the
`try` to 500 with `f"Error general: {str(e)}"`. -/
def query_database (bot : SQLChatBot) (env : HandlerEnv) :
    HttpOutcome × Trace × SQLChatBot :=
  match env.requestJson with
  | PyResult.exn m =>
      (HttpOutcome.unhandled m, ⟨Option.none, Option.none, Option.none⟩, bot)
  | PyResult.ok data =>
    let user_input : Option PyVal := data.lookup "userInput"
    if truthyOpt user_input then
      let gen := SQLChatBot.get_sql_query_from_openai bot (env.genCall user_input)
      let bot1 := gen.2
      match gen.1 with
      | PyResult.exn m =>
          (HttpOutcome.response 500 (RespBody.errorBody ("Error general: " ++ m)),
           ⟨some (PyResult.exn m), Option.none, Option.none⟩, bot1)
      | PyResult.ok sqlOpt =>
        if truthyStrOpt sqlOpt then
          let ex := SQLChatBot.execute_query bot1 (env.dbCall (sqlOpt.getD ""))
          let bot2 := ex.2
          match ex.1 with
          | PyResult.exn m =>
              (HttpOutcome.response 500 (RespBody.errorBody ("Error general: " ++ m)),
               ⟨some (PyResult.ok sqlOpt), some (PyResult.exn m), Option.none⟩, bot2)
          | PyResult.ok er =>
            if truthyStrOpt er.error then
              (HttpOutcome.response 500 (RespBody.errorBody (er.error.getD "")),
               ⟨some (PyResult.ok sqlOpt), some (PyResult.ok er), Option.none⟩, bot2)
            else
              let enh := SQLChatBot.get_enhanced_response bot2 (env.explainCall er.result)
              let bot3 := enh.2
              match enh.1 with
              | PyResult.exn m =>
                  (HttpOutcome.response 500 (RespBody.errorBody ("Error general: " ++ m)),
                   ⟨some (PyResult.ok sqlOpt), some (PyResult.ok er),
                    some (PyResult.exn m)⟩, bot3)
              | PyResult.ok detailed =>
                  (HttpOutcome.response 200 (RespBody.successBody er.result detailed),
                   ⟨some (PyResult.ok sqlOpt), some (PyResult.ok er),
                    some (PyResult.ok detailed)⟩, bot3)
        else
          (HttpOutcome.response 500 (RespBody.errorBody "No se pudo generar la consulta SQL"),
           ⟨some (PyResult.ok sqlOpt), Option.none, Option.none⟩, bot1)
    else
      (HttpOutcome.response 400 (RespBody.errorBody "Falta el parámetro 'userInput'"),
       ⟨Option.none, Option.none, Option.none⟩, bot)

/-- A concrete bot state for witnesses. -/
def bot0 : SQLChatBot := ⟨some "postgres://example", some "sk-test"⟩

/-- A concrete all-success environment: body `{"userInput": "hola"}`, the
generator returns fenced SQL, the database returns one well-formed row, the
explainer returns a sentence. -/
def envOk : HandlerEnv :=
  ⟨PyResult.ok [("userInput", PyVal.str "hola")],
   fun _ => CallBehavior.returns 200 "```sql SELECT * FROM usuarios```",
   fun _ => DbBehavior.success ["id", "nombre"] [[PyVal.int 1, PyVal.str "Ana"]],
   fun _ => CallBehavior.returns 200 "Hay un usuario."⟩

/-! ### Auxiliary lemmas -/

/-- `get_sql_query_from_openai` leaves the bot state unchanged. -/
theorem get_sql_query_from_openai_bot (bot : SQLChatBot) (b : CallBehavior) :
    (SQLChatBot.get_sql_query_from_openai bot b).2 = bot := rfl

/-- `execute_query` leaves the bot state unchanged. -/
theorem execute_query_bot (bot : SQLChatBot) (b : DbBehavior) :
    (SQLChatBot.execute_query bot b).2 = bot := rfl

/-- `get_enhanced_response` leaves the bot state unchanged. -/
theorem get_enhanced_response_bot (bot : SQLChatBot) (b : CallBehavior) :
    (SQLChatBot.get_enhanced_response bot b).2 = bot := rfl

/-- Every error string `execute_query` can produce is nonempty (both have a
fixed nonempty Spanish prefix). -/
theorem execute_query_error_ne_empty (bot : SQLChatBot) (b : DbBehavior)
    (er : ExecResult) (h : (SQLChatBot.execute_query bot b).1 = PyResult.ok er) :
    er.error ≠ some "" := by
  cases b <;>
    simp only [SQLChatBot.execute_query, PyResult.ok.injEq] at h
  · exact absurd h (by simp)
  · subst h; simp
  · subst h
    intro hc
    simp only [Option.some.injEq] at hc
    have hdata := congrArg String.data hc
    rw [String.data_append] at hdata
    simp at hdata
  · subst h; simp

/-! ### Claim theorems -/

/-- C9: For every request processed by `query_database`, the shared
`SQLChatBot` instance (its `db_url` and `openai_api_key` fields) is
returned unchanged, for every outcome: no operation mutates state shared
across requests. -/
theorem query_database_preserves_bot (bot : SQLChatBot) (env : HandlerEnv) :
    (query_database bot env).2.2 = bot := by
  unfold query_database
  cases env.requestJson with
  | exn m => rfl
  | ok data =>
    dsimp only
    split
    · split
      · rfl
      · split
        · split
          · rfl
          · split
            · rfl
            · split
              · rfl
              · rfl
        · rfl
    · rfl

/-- C9 witness: the bot state survives a concrete all-success run. -/
theorem query_database_preserves_bot_witness :
    (query_database bot0 envOk).2.2 = bot0 :=
  query_database_preserves_bot bot0 envOk

/-- C2: a POST body that parses to a dict without the `userInput` key gets
a 400 with the missing-parameter message, and never a 500. -/
theorem missing_userInput_returns_400 (bot : SQLChatBot) (env : HandlerEnv)
    (data : List (String × PyVal))
    (hjson : env.requestJson = PyResult.ok data)
    (hmiss : data.lookup "userInput" = Option.none) :
    (query_database bot env).1
      = HttpOutcome.response 400 (RespBody.errorBody "Falta el parámetro 'userInput'")
    ∧ ∀ b, (query_database bot env).1 ≠ HttpOutcome.response 500 b := by
  unfold query_database
  rw [hjson]
  simp [hmiss, truthyOpt]

/-- C2 witness: concrete body `{"otra": 1}` yields the 400 response. -/
theorem missing_userInput_returns_400_witness :
    (query_database bot0
        ⟨PyResult.ok [("otra", PyVal.int 1)], envOk.genCall, envOk.dbCall,
         envOk.explainCall⟩).1
      = HttpOutcome.response 400 (RespBody.errorBody "Falta el parámetro 'userInput'") :=
  (missing_userInput_returns_400 bot0 _ [("otra", PyVal.int 1)] rfl (by decide)).1

/-- C10: a body whose `userInput` is present but falsy (`""` or `null`) is
treated like a missing field: 400 with the missing-parameter message, and
no LLM or database call is made. -/
theorem falsy_userInput_returns_400 (bot : SQLChatBot) (env : HandlerEnv)
    (data : List (String × PyVal))
    (hjson : env.requestJson = PyResult.ok data)
    (hfalsy : data.lookup "userInput" = some (PyVal.str "")
            ∨ data.lookup "userInput" = some PyVal.none) :
    (query_database bot env).1
      = HttpOutcome.response 400 (RespBody.errorBody "Falta el parámetro 'userInput'")
    ∧ (query_database bot env).2.1.genResult = Option.none
    ∧ (query_database bot env).2.1.dbResult = Option.none := by
  unfold query_database
  rw [hjson]
  rcases hfalsy with h | h <;> simp [h, truthyOpt, truthy]

/-- C10 witness: concrete body `{"userInput": ""}` yields the 400 response
and an empty trace. -/
theorem falsy_userInput_returns_400_witness :
    (query_database bot0
        ⟨PyResult.ok [("userInput", PyVal.str "")], envOk.genCall, envOk.dbCall,
         envOk.explainCall⟩).1
      = HttpOutcome.response 400 (RespBody.errorBody "Falta el parámetro 'userInput'") :=
  (falsy_userInput_returns_400 bot0 _ [("userInput", PyVal.str "")] rfl
    (Or.inl (by decide))).1

/-- C4: when the generator ran and returned a missing or empty SQL string
(Python-falsy), the handler answers 500 with the generation-failure message
and the database gateway is never invoked in that run. -/
theorem empty_sql_returns_500_no_db_call (bot : SQLChatBot) (env : HandlerEnv)
    (o : Option String)
    (hgen : (query_database bot env).2.1.genResult = some (PyResult.ok o))
    (ho : o = Option.none ∨ o = some "") :
    (query_database bot env).1
      = HttpOutcome.response 500 (RespBody.errorBody "No se pudo generar la consulta SQL")
    ∧ (query_database bot env).2.1.dbResult = Option.none := by
  rcases ho with rfl | rfl <;>
  · revert hgen
    unfold query_database
    cases env.requestJson with
    | exn m => intro h; simp at h
    | ok data =>
      dsimp only
      split
      · split
        · intro h; simp at h
        · split
          · split
            · intro h; simp_all [truthyStrOpt]
            · split
              · intro h; simp_all [truthyStrOpt]
              · split
                · intro h; simp_all [truthyStrOpt]
                · intro h; simp_all [truthyStrOpt]
          · intro h; simp_all
      · intro h; simp at h

/-- C4 witness: a generator returning the pure fence string (which cleans
to the empty string) leads to the 500 generation-failure response with no
database call. -/
theorem empty_sql_returns_500_no_db_call_witness :
    (query_database bot0
        ⟨envOk.requestJson, fun _ => CallBehavior.returns 200 "```sql```",
         envOk.dbCall, envOk.explainCall⟩).1
      = HttpOutcome.response 500 (RespBody.errorBody "No se pudo generar la consulta SQL") :=
  (empty_sql_returns_500_no_db_call bot0 _ (some "") (by decide) (Or.inr rfl)).1

/-- C1: when the database gateway ran and reported an error string, the
handler answers 500 with exactly that string in the `error` field and the
explainer is never invoked in that run. -/
theorem db_error_returns_500_exact (bot : SQLChatBot) (env : HandlerEnv)
    (er : ExecResult) (s : String)
    (hdb : (query_database bot env).2.1.dbResult = some (PyResult.ok er))
    (herr : er.error = some s) :
    (query_database bot env).1 = HttpOutcome.response 500 (RespBody.errorBody s)
    ∧ (query_database bot env).2.1.explainResult = Option.none := by
  revert hdb
  unfold query_database
  cases env.requestJson with
  | exn m => intro h; simp at h
  | ok data =>
    dsimp only
    split
    · split
      · intro h; simp at h
      · split
        · split
          · intro h; simp at h
          · rename_i heq
            split
            · intro h
              simp only [Option.some.injEq, PyResult.ok.injEq] at h
              subst h
              rw [herr]
              exact ⟨rfl, rfl⟩
            · rename_i hfalsy
              split <;> intro h <;>
              · simp only [Option.some.injEq, PyResult.ok.injEq] at h
                subst h
                rw [herr] at hfalsy
                have hne := execute_query_error_ne_empty _ _ _ heq
                rw [herr] at hne
                simp [truthyStrOpt] at hfalsy
                subst hfalsy
                exact absurd rfl hne
        · intro h; simp at h
    · intro h; simp at h

/-- C1 witness: a failing SQL execution with message `boom` yields 500
with exactly `Error en la base de datos: boom` and no explainer call. -/
theorem db_error_returns_500_exact_witness :
    (query_database bot0
        ⟨envOk.requestJson, envOk.genCall, fun _ => DbBehavior.execFail "boom",
         envOk.explainCall⟩).1
      = HttpOutcome.response 500 (RespBody.errorBody "Error en la base de datos: boom") :=
  (db_error_returns_500_exact bot0 _
      ⟨Option.none, some "Error en la base de datos: boom", true, false⟩
      "Error en la base de datos: boom" (by decide) rfl).1

/-- C5: when row retrieval succeeded (gateway ran with no error and
produced rows) but the explainer ran and returned `None`, the handler still
returns the success response with the rows in `data` and a null
`enhanced_response`. -/
theorem explain_failure_still_success (bot : SQLChatBot) (env : HandlerEnv)
    (er : ExecResult) (rows : List Rec)
    (hdb : (query_database bot env).2.1.dbResult = some (PyResult.ok er))
    (herr : er.error = Option.none)
    (hres : er.result = some rows)
    (hexp : (query_database bot env).2.1.explainResult
              = some (PyResult.ok Option.none)) :
    (query_database bot env).1
      = HttpOutcome.response 200 (RespBody.successBody (some rows) Option.none) := by
  revert hdb hexp
  unfold query_database
  cases env.requestJson with
  | exn m => intro h _; simp at h
  | ok data =>
    dsimp only
    split
    · split
      · intro h _; simp at h
      · split
        · split
          · intro h _; simp at h
          · split
            · intro _ h; simp at h
            · split
              · intro _ h; simp at h
              · intro hdb hexp
                simp only [Option.some.injEq, PyResult.ok.injEq] at hdb hexp
                subst hdb
                subst hexp
                rw [hres]
        · intro h _; simp at h
    · intro h _; simp at h

/-- C5 witness: a concrete run where the database returns a row and the
explainer call comes back with a non-200 status (hence `None`) still
produces the 200 success response with the rows and a null explanation. -/
theorem explain_failure_still_success_witness :
    (query_database bot0
        ⟨envOk.requestJson, envOk.genCall, envOk.dbCall,
         fun _ => CallBehavior.returns 503 "overloaded"⟩).1
      = HttpOutcome.response 200
          (RespBody.successBody
            (some [[("id", PyVal.int 1), ("nombre", PyVal.str "Ana")]])
            Option.none) :=
  explain_failure_still_success bot0 _
    ⟨some [[("id", PyVal.int 1), ("nombre", PyVal.str "Ana")]], Option.none,
     true, true⟩
    [[("id", PyVal.int 1), ("nombre", PyVal.str "Ana")]]
    (by decide) rfl rfl (by decide)

/-- C7: when the database behavior is a successful result set whose rows
all have as many cells as there are described columns, every record of the
`data` field of a successful response has key list equal to the cursor's
column list (hence the same key set). -/
theorem success_data_records_match_columns (bot : SQLChatBot) (env : HandlerEnv)
    (cols : List String) (rows : List (List PyVal))
    (hdbc : ∀ q, env.dbCall q = DbBehavior.success cols rows)
    (hwf : ∀ row ∈ rows, row.length = cols.length)
    (data : List Rec) (enh : Option String)
    (hout : (query_database bot env).1
              = HttpOutcome.response 200 (RespBody.successBody (some data) enh)) :
    ∀ rec ∈ data, rec.map Prod.fst = cols := by
  revert hout
  unfold query_database
  cases env.requestJson with
  | exn m => intro h; simp at h
  | ok data' =>
    dsimp only
    split
    · split
      · intro h; simp at h
      · split
        · split
          · intro h; simp at h
          · rename_i heq
            split
            · intro h; simp at h
            · split
              · intro h; simp at h
              · intro hout
                rw [hdbc] at heq
                simp only [SQLChatBot.execute_query, PyResult.ok.injEq] at heq
                subst heq
                simp only [HttpOutcome.response.injEq,
                  RespBody.successBody.injEq, Option.some.injEq, true_and] at hout
                obtain ⟨⟨rfl, -⟩, -⟩ := hout
                intro rec hrec
                obtain ⟨row, hrow, rfl⟩ := List.mem_map.mp hrec
                exact List.map_fst_zip cols row (hwf row hrow).symm.le
        · intro h; simp at h
    · intro h; simp at h

/-- C7 witness: in the concrete all-success run, both hypotheses hold and
every record of the returned data has keys `["id", "nombre"]`. -/
theorem success_data_records_match_columns_witness :
    List.map Prod.fst [("id", PyVal.int 1), ("nombre", PyVal.str "Ana")]
      = ["id", "nombre"] :=
  success_data_records_match_columns bot0 envOk ["id", "nombre"]
    [[PyVal.int 1, PyVal.str "Ana"]] (fun _ => rfl) (by decide)
    [[("id", PyVal.int 1), ("nombre", PyVal.str "Ana")]]
    (some "Hay un usuario.") (by decide)
    [("id", PyVal.int 1), ("nombre", PyVal.str "Ana")] (by decide)

/-- C8: on a success-status LLM response, `get_sql_query_from_openai`
returns the first choice's content stripped of surrounding whitespace with
the literal markers <three backticks>sql and <three backticks> replaced
away; on any non-success status it returns `None` (and no exception). -/
theorem gen_sql_cleaning (bot : SQLChatBot) (st : Nat) (content : String) :
    (st = 200 →
      (SQLChatBot.get_sql_query_from_openai bot (CallBehavior.returns st content)).1
        = PyResult.ok (some (pyReplace (pyReplace (pyStrip content) "```sql" "") "```" "")))
    ∧ (st ≠ 200 →
      (SQLChatBot.get_sql_query_from_openai bot (CallBehavior.returns st content)).1
        = PyResult.ok Option.none) := by
  constructor <;> intro h <;>
    simp [SQLChatBot.get_sql_query_from_openai, cleanSql, h]

/-- C8 witness: a fenced completion ` ```sql SELECT 1``` ` cleans to
` SELECT 1`; a 500-status response yields `None`. -/
theorem gen_sql_cleaning_witness :
    (SQLChatBot.get_sql_query_from_openai bot0
        (CallBehavior.returns 200 " ```sql SELECT 1``` ")).1
      = PyResult.ok (some " SELECT 1")
    ∧ (SQLChatBot.get_sql_query_from_openai bot0
        (CallBehavior.returns 500 "falla")).1
      = PyResult.ok Option.none :=
  ⟨((gen_sql_cleaning bot0 200 " ```sql SELECT 1``` ").1 rfl).trans (by decide),
   (gen_sql_cleaning bot0 500 "falla").2 (by decide)⟩

/-- C3 counterexample: on a database error during execution, `execute_query`
returns with the connection opened but not closed — the `conn.close()` on
the success path is unreachable from the `except` branch. -/
theorem conn_not_closed_on_db_error_cex :
    (SQLChatBot.execute_query bot0 (DbBehavior.execFail "boom")).1
      = PyResult.ok ⟨Option.none, some "Error en la base de datos: boom", true, false⟩
    ∧ (ExecResult.connOpened
        ⟨Option.none, some "Error en la base de datos: boom", true, false⟩ = true
      ∧ ExecResult.connClosed
        ⟨Option.none, some "Error en la base de datos: boom", true, false⟩ = false) :=
  ⟨rfl, rfl, rfl⟩

/-- C3 amended: when a connection was opened, `execute_query` closes it
before returning if execution succeeds, but returns without closing it when
execution raises a database error. -/
theorem conn_closed_iff_no_db_error (bot : SQLChatBot) (b : DbBehavior)
    (er : ExecResult)
    (h : (SQLChatBot.execute_query bot b).1 = PyResult.ok er)
    (hopen : er.connOpened = true) :
    (er.error = Option.none → er.connClosed = true)
    ∧ (er.error ≠ Option.none → er.connClosed = false) := by
  cases b <;> simp only [SQLChatBot.execute_query, PyResult.ok.injEq] at h
  · exact absurd h (by simp)
  · subst h; simp
  · subst h; simp
  · subst h; simp

/-- C3 amended witness: instantiated at a successful empty result set. -/
theorem conn_closed_iff_no_db_error_witness :
    ((⟨some [], Option.none, true, true⟩ : ExecResult).error = Option.none →
      (⟨some [], Option.none, true, true⟩ : ExecResult).connClosed = true)
    ∧ ((⟨some [], Option.none, true, true⟩ : ExecResult).error ≠ Option.none →
      (⟨some [], Option.none, true, true⟩ : ExecResult).connClosed = false) :=
  conn_closed_iff_no_db_error bot0 (DbBehavior.success [] []) _ rfl rfl

/-- A request environment whose body parsing raises (e.g. a JSON body
`null`: `request.json` is `None`, and `data.get` raises `AttributeError`).
Lines 103-104 of the source sit before the handler's `try`. -/
def envParseErr : HandlerEnv :=
  ⟨PyResult.exn "NoneType object has no attribute get",
   envOk.genCall, envOk.dbCall, envOk.explainCall⟩

/-- C6 counterexample: an exception raised at the input-parsing step is not
converted into the 500 response carrying the exception text — it escapes
`query_database` unhandled, because `request.json` and `.get` run before
the `try` block. -/
theorem parse_exception_escapes_cex :
    (query_database bot0 envParseErr).1
      = HttpOutcome.unhandled "NoneType object has no attribute get"
    ∧ (query_database bot0 envParseErr).1
      ≠ HttpOutcome.response 500
          (RespBody.errorBody
            ("Error general: " ++ "NoneType object has no attribute get")) :=
  ⟨rfl, by decide⟩

/-- C6 amended: any exception raised at the SQL-generation, query-execution
or explanation step (the steps inside the `try`) is converted into a 500
response whose `error` field is `Error general: ` followed by the
exception's text; an exception at the input-parsing step instead propagates
out of the handler. -/
theorem try_scope_exception_returns_500 (bot : SQLChatBot) (env : HandlerEnv)
    (m : String)
    (h : (query_database bot env).2.1.genResult = some (PyResult.exn m)
       ∨ (query_database bot env).2.1.dbResult = some (PyResult.exn m)
       ∨ (query_database bot env).2.1.explainResult = some (PyResult.exn m)) :
    (query_database bot env).1
      = HttpOutcome.response 500 (RespBody.errorBody ("Error general: " ++ m)) := by
  revert h
  unfold query_database
  cases env.requestJson with
  | exn m' => intro h; rcases h with h | h | h <;> simp at h
  | ok data =>
    dsimp only
    split
    · split
      · intro h; rcases h with h | h | h <;> simp_all
      · split
        · split
          · intro h; rcases h with h | h | h <;> simp_all
          · split
            · intro h; rcases h with h | h | h <;> simp_all
            · split
              · intro h; rcases h with h | h | h <;> simp_all
              · intro h; rcases h with h | h | h <;> simp_all
        · intro h; rcases h with h | h | h <;> simp_all
    · intro h; rcases h with h | h | h <;> simp_all

/-- C6 amended witness: a generator call raising `ConnectionError` yields
the 500 response with `Error general: ConnectionError`. -/
theorem try_scope_exception_returns_500_witness :
    (query_database bot0
        ⟨envOk.requestJson, fun _ => CallBehavior.raises "ConnectionError",
         envOk.dbCall, envOk.explainCall⟩).1
      = HttpOutcome.response 500
          (RespBody.errorBody ("Error general: " ++ "ConnectionError")) :=
  try_scope_exception_returns_500 bot0 _ "ConnectionError" (Or.inl (by decide))

end Consultor
